import Mathlib

/-!
Verification of the NanoStat MultiQC module
(`src/multiqc/modules/nanostat/nanostat.py`).

The Python module is shallowly embedded below.  Python `dict`s are
represented as insertion-ordered association lists (`alookup` is `d[k]`
lookup, `aset` is `d[k] = v` assignment: it replaces in place or appends).
Python numbers (`float` results of `float(...)` and `int` results of
`int(...)`) are both represented as `ℚ`; on the integral values handled by
this module the Python float arithmetic is exact, so `ℚ` is faithful.
Raised Python exceptions are modelled with `Except PyErr`; `log.debug`
diagnostics are modelled as an explicit list of `Diag` events.
-/

/-- A raised Python exception, as far as this module can raise one. -/
inductive PyErr where
  /-- `ValueError` from `float(...)` or `int(...)` on malformed text. -/
  | valueError
  /-- `IndexError` from indexing an out-of-range list position. -/
  | indexError
  /-- `TypeError` (e.g. arithmetic on `None`). -/
  | typeError
  /-- `KeyError` from a missing dict key. -/
  | keyError (key : String)
  /-- `AssertionError` with its message. -/
  | assertionError (msg : String)
deriving DecidableEq, Repr

/-- A `log.debug` diagnostic event emitted by the module. -/
inductive Diag where
  /-- "Did not recognise NanoStat file ... - skipping" naming the file. -/
  | skipped (fn : String)
  /-- "Duplicate sample data found! Overwriting: ..." naming the sample. -/
  | duplicate (sname : String)
deriving DecidableEq, Repr

/-- Lookup in a Python dict modelled as an association list (`d[k]`,
`k in d` when `isSome`). -/
def alookup {α : Type} : List (String × α) → String → Option α
  | [], _ => none
  | (k', v) :: rest, k => if k' = k then some v else alookup rest k

/-- Python dict assignment `d[k] = v`: replace the value in place if the
key is present, otherwise append the new binding at the end. -/
def aset {α : Type} : List (String × α) → String → α → List (String × α)
  | [], k, v => [(k, v)]
  | (k', v') :: rest, k, v =>
    if k' = k then (k', v) :: rest else (k', v') :: aset rest k v

/-- Python `d.update(e)`: assign every binding of `e` into `d` in order. -/
def aupdate {α : Type} : List (String × α) → List (String × α) → List (String × α)
  | d, [] => d
  | d, (k, v) :: rest => aupdate (aset d k v) rest

/-- The key list of a Python dict (`d.keys()`). -/
def akeys {α : Type} (d : List (String × α)) : List String := d.map Prod.fst

/-- A parsed per-stream or per-sample record: field name to numeric value. -/
abbrev Dict := List (String × ℚ)

/-- The aggregate store `self.nanostat_data`: sample name to record. -/
abbrev Store := List (String × Dict)

/-- Python `str.strip()` on a character list: drop whitespace from both
ends. -/
def trimChars (l : List Char) : List Char :=
  ((l.dropWhile Char.isWhitespace).reverse.dropWhile Char.isWhitespace).reverse

/-- Python `str.strip()`. -/
def pyStrip (s : String) : String := ⟨trimChars s.data⟩

/-- Split a character list at every character satisfying `p`, keeping
empty pieces (the semantics of Python `str.split(sep)` with a one-character
separator when `p` is equality with it). -/
def splitChars (p : Char → Bool) : List Char → List (List Char)
  | [] => [[]]
  | c :: rest =>
    if p c then [] :: splitChars p rest
    else
      match splitChars p rest with
      | [] => [[c]]
      | piece :: pieces => (c :: piece) :: pieces

/-- Python `s.split(sep)` for a one-character separator `sep`. -/
def pySplitOn (s : String) (sep : Char) : List String :=
  (splitChars (fun c => c = sep) s.data).map (fun l => (⟨l⟩ : String))

/-- Python `s.replace(",", "")`: drop every comma. -/
def pyRemoveCommas (s : String) : String :=
  ⟨s.data.filter (fun c => c ≠ ',')⟩

/-- Python `s.startswith(pre)`. -/
def pyStartsWith (s pre : String) : Bool :=
  pre.data.isPrefixOf s.data

/-- `markupsafe`/`jinja2.escape` of a single character. -/
def escapeChar (c : Char) : String :=
  if c = '&' then "&amp;"
  else if c = '<' then "&lt;"
  else if c = '>' then "&gt;"
  else if c = '"' then "&#34;"
  else if c = '\'' then "&#39;"
  else String.singleton c

/-- `jinja2.escape(line)`: HTML-escape the five special characters. -/
def htmlEscape (s : String) : String :=
  (s.data.map escapeChar).foldl (fun a b => a ++ b) ""

/-- Numeric value of a digit list, most significant first. -/
def natOfDigits : List Char → ℕ :=
  List.foldl (fun a c => a * 10 + (c.toNat - 48)) 0

/-- Python `int(s)` on the decimal grammar this module's inputs use
(optional surrounding whitespace, optional sign, at least one digit;
`None` models the raised `ValueError`). -/
def pyInt? (s : String) : Option Int :=
  match trimChars s.data with
  | [] => none
  | '+' :: rest =>
    if rest ≠ [] ∧ rest.all Char.isDigit then some (Int.ofNat (natOfDigits rest)) else none
  | '-' :: rest =>
    if rest ≠ [] ∧ rest.all Char.isDigit then some (-(Int.ofNat (natOfDigits rest))) else none
  | l =>
    if l.all Char.isDigit then some (Int.ofNat (natOfDigits l)) else none

/-- Decimal part parser for `pyFloat?`: digits, optionally a dot and more
digits, with at least one digit overall.  Returns the value as an
unreduced numerator/denominator pair: the digit string with the dot
removed over the matching power of ten. -/
def pyFloatCore (l : List Char) : Option (ℕ × ℕ) :=
  let intPart := l.takeWhile Char.isDigit
  let rest := l.dropWhile Char.isDigit
  match rest with
  | [] => if intPart = [] then none else some (natOfDigits intPart, 1)
  | '.' :: frac =>
    if frac.all Char.isDigit ∧ (intPart ≠ [] ∨ frac ≠ []) then
      some (natOfDigits (intPart ++ frac), 10 ^ frac.length)
    else none
  | _ => none

/-- Python `float(s)` on the decimal grammar this module's inputs use
(optional surrounding whitespace, optional sign, digits with an optional
fractional part; `None` models the raised `ValueError`).  The result is
built with `mkRat` so that concrete runs evaluate inside the kernel. -/
def pyFloat? (s : String) : Option ℚ :=
  match trimChars s.data with
  | '+' :: rest => (pyFloatCore rest).map (fun p => mkRat p.1 p.2)
  | '-' :: rest => (pyFloatCore rest).map (fun p => mkRat (-(p.1 : Int)) p.2)
  | l => (pyFloatCore l).map (fun p => mkRat p.1 p.2)

/-- Kernel-computable subtraction on `ℚ` (`ratSub_eq` proves it agrees
with `HSub.hSub`; the library operation does not evaluate under `decide`,
so the embedding routes the module's subtractions through this one). -/
def ratSub (a b : ℚ) : ℚ :=
  mkRat (a.num * (b.den : Int) - b.num * (a.den : Int)) (a.den * b.den)

/-- Kernel-computable non-negativity test on `ℚ` (`ratNonneg_iff` proves
it agrees with `0 ≤ a`). -/
def ratNonneg (a : ℚ) : Bool :=
  decide (0 ≤ a.num)

/-- Python `s.split()`: split on whitespace, dropping empty pieces. -/
def pySplitWS (s : String) : List String :=
  ((splitChars Char.isWhitespace s.data).map (fun l => (⟨l⟩ : String))).filter
    (fun p => p ≠ "")

/-- `MultiqcModule._KEYS_NUM`. -/
def KEYS_NUM : List String :=
  [ "Active channels",
    "Number of reads",
    "Total bases",
    "Total bases aligned",
    "Read length N50",
    "Mean read length",
    "Median read length",
    "Median read quality",
    "Mean read quality",
    "Average percent identity",
    "Median percent identity" ]

/-- `MultiqcModule._KEYS_READ_Q`. -/
def KEYS_READ_Q : List String :=
  [ "&gt;Q5", "&gt;Q7", "&gt;Q10", "&gt;Q12", "&gt;Q15" ]

/-- `MultiqcModule._stat_types`. -/
def statTypes : List String := ["aligned", "seq summary", "unrecognized"]

/-- `MultiqcModule._key_fmt.format(k, stat_type)`. -/
def keyFmt (k stat : String) : String := k ++ " (" ++ stat ++ ")"

/-- The per-line loop of `parse_nanostat_log` (source lines 85-100):
escape the line, split the stripped line on colons, and parse recognized
keys into the `nano_stats` dict; a missing or malformed value raises. -/
def parseNanostatLine (nano_stats : Dict) (rawLine : String) : Except PyErr Dict :=
  let line := htmlEscape rawLine
  match pySplitOn (pyStrip line) ':' with
  | [] => Except.ok nano_stats
  | key :: restParts =>
    if key ∈ KEYS_NUM then
      match restParts.head? with
      | none => Except.error PyErr.indexError
      | some p1 =>
        match pyFloat? (pyRemoveCommas p1) with
        | none => Except.error PyErr.valueError
        | some v => Except.ok (aset nano_stats key v)
    else if key ∈ KEYS_READ_Q then
      match restParts.head? with
      | none => Except.error PyErr.indexError
      | some p1 =>
        match (pySplitWS (pyStrip p1)).head? with
        | none => Except.error PyErr.indexError
        | some tok =>
          match pyInt? tok with
          | none => Except.error PyErr.valueError
          | some v => Except.ok (aset nano_stats key (mkRat v 1))
    else Except.ok nano_stats

/-- The whole line loop of `parse_nanostat_log`, from an empty
`nano_stats` dict; the first raised exception aborts the loop. -/
def parseNanostatLines : List String → Dict → Except PyErr Dict
  | [], nano_stats => Except.ok nano_stats
  | line :: rest, nano_stats =>
    match parseNanostatLine nano_stats line with
    | Except.error e => Except.error e
    | Except.ok nano_stats' => parseNanostatLines rest nano_stats'

/-- The dict comprehension building `out_d`: namespace every key with the
inferred stat type. -/
def namespaceKeys (d : Dict) (stat : String) : Dict :=
  d.map (fun kv => (keyFmt kv.1 stat, kv.2))

/-- Do the key sets of two dicts intersect
(`not set(d1.keys()).isdisjoint(d2.keys())`)? -/
def keysOverlap (d₁ d₂ : Dict) : Bool :=
  (akeys d₁).any (fun k => k ∈ akeys d₂)

/-- Source lines 112-118: warn when the incoming keys overlap an existing
sample entry, then `setdefault(s_name, dict()).update(out_d)`. -/
def mergeOut (store : Store) (sname : String) (out_d : Dict) : Store × List Diag :=
  let diags :=
    match alookup store sname with
    | some existing => if keysOverlap existing out_d then [Diag.duplicate sname] else []
    | none => []
  let entry := (alookup store sname).getD []
  (aset store sname (aupdate entry out_d), diags)

/-- `parse_nanostat_log(self, f)` (source lines 77-120): parse the lines,
classify the variant from the discriminator fields, drop unrecognized
streams with a diagnostic, and merge recognized ones into the store.
Returns the updated store and the emitted diagnostics, or the raised
exception. -/
def parse_nanostat_log (store : Store) (sname fn : String) (lines : List String) :
    Except PyErr (Store × List Diag) :=
  match parseNanostatLines lines [] with
  | Except.error e => Except.error e
  | Except.ok nano_stats =>
    if (alookup nano_stats "Total bases aligned").isSome then
      Except.ok (mergeOut store sname (namespaceKeys nano_stats "aligned"))
    else if (alookup nano_stats "Active channels").isSome then
      Except.ok (mergeOut store sname (namespaceKeys nano_stats "seq summary"))
    else
      Except.ok (store, [Diag.skipped fn])

/-- One discovered log file handed to the module: sample name, file name,
text lines. -/
structure LogFile where
  s_name : String
  fn : String
  lines : List String

/-- The `__init__` loop over discovered files (source lines 56-58): parse
each stream in turn into the shared store; an exception raised while
parsing one stream propagates and aborts the loop. -/
def processStreamsFrom : List LogFile → Store × List Diag → Except PyErr (Store × List Diag)
  | [], acc => Except.ok acc
  | f :: fs, acc =>
    match parse_nanostat_log acc.1 f.s_name f.fn f.lines with
    | Except.error e => Except.error e
    | Except.ok (st, ds) => processStreamsFrom fs (st, acc.2 ++ ds)

/-- Run the module's parsing phase from the empty store. -/
def processStreams (files : List LogFile) : Except PyErr (Store × List Diag) :=
  processStreamsFrom files ([], [])

/-!
## General statistics table (`nanostat_general_stats_table`)

The `ColumnSpec` dicts carry many render-only fields (title text,
description, colour scale, unit suffix, value-scaling closure).  Those
fields are copied verbatim from the static `headers_base` templates and
never influence control flow, so the embedding keeps only the fields the
logic reads or writes: the `hidden` flag and the `placement` value.
-/

/-- The column metadata the table logic computes per composite key. -/
structure HeaderSpec where
  hidden : Bool
  placement : ℚ
deriving DecidableEq, Repr

/-- `headers_base[k].get("hidden", False)`: the four templates that carry
`"hidden": True` (source lines 126-207); every `_KEYS_READ_Q` key has no
template, hence default `False`. -/
def headersBaseHidden (k : String) : Bool :=
  k ∈ [ "Average percent identity", "Mean read length",
        "Mean read quality", "Median read length" ]

/-- `header_keys`: the union of all sample key sets (source lines 209-211);
only membership is ever queried, so a concatenation models the set. -/
def header_keys (store : Store) : List String :=
  (store.map (fun sd => akeys sd.2)).flatten

/-- The inner loop of the table builder (source lines 219-230): for each
`(stat_type_idx, stat_type)`, if the composite key occurs in the store,
record its column with the computed placement and hidden flag. -/
def addStatCols (hk : List String) (k first_type_key : String) (pIdx : ℕ) :
    List (ℕ × String) → List (String × HeaderSpec) → List (String × HeaderSpec)
  | [], headers => headers
  | (i, stat_type) :: rest, headers =>
    let key := keyFmt k stat_type
    let headers' :=
      if key ∈ hk then
        -- Hide columns from sequencing_summary if alignment summary available.
        let visible := (decide (i = 0) || !(alookup headers first_type_key).isSome)
        let visible := visible && !(pyStartsWith key "&gt;")
        aset headers key
          { hidden := headersBaseHidden k || !visible, placement := 1000 + (pIdx : ℚ) }
      else headers
    addStatCols hk k first_type_key pIdx rest headers'

/-- The outer loop of the table builder over
`enumerate(self._KEYS_NUM + self._KEYS_READ_Q)` (source line 217);
`first_type_key` uses `default_stat_source = self._stat_types[0]`. -/
def addBaseCols (hk : List String) :
    List (ℕ × String) → List (String × HeaderSpec) → List (String × HeaderSpec)
  | [], headers => headers
  | (pIdx, k) :: rest, headers =>
    addBaseCols hk rest (addStatCols hk k (keyFmt k "aligned") pIdx statTypes.enum headers)

/-- `nanostat_general_stats_table` (source lines 122-232), restricted to
the headers dict it hands to `general_stats_addcols`. -/
def nanostat_general_stats_table (store : Store) : List (String × HeaderSpec) :=
  addBaseCols (header_keys store) (KEYS_NUM ++ KEYS_READ_Q).enum []

/-!
## Quality-distribution plot (`nanostat_alignment_plot`)
-/

/-- Python's `str(...)` of the optional stat type, as interpolated by
`"{} ({})".format(...)`: `None` prints as the text `None`. -/
def pyStr : Option String → String
  | some s => s
  | none => "None"

/-- `_get_total_reads` (source lines 237-243): the first stat type whose
"Number of reads" composite key is present, with its value; `(None, None)`
when none is. -/
def _get_total_reads (d : Dict) : Option ℚ × Option String :=
  match statTypes.findSome?
      (fun st => (alookup d (keyFmt "Number of reads" st)).map (fun v => (v, st))) with
  | some (v, st) => (some v, some st)
  | none => (none, none)

/-- `_range_names` (source lines 248-255), in insertion order. -/
def rangeNames : List (String × String) :=
  [ ("&gt;Q5", "&lt;Q5"),
    ("&gt;Q7", "Q5-7"),
    ("&gt;Q10", "Q7-10"),
    ("&gt;Q12", "Q10-12"),
    ("&gt;Q15", "Q12-15"),
    ("rest", "&gt;Q15") ]

/-- The per-sample bucket loop (source lines 260-274): successive
subtraction of cumulative counts, with the non-negativity `assert`; a
missing composite key raises `KeyError`, subtraction from a `None`
baseline raises `TypeError`. -/
def barLoop (s_name : String) (d : Dict) (stat_type : Option String) :
    List (String × String) → Dict → Option ℚ → Except PyErr Dict
  | [], bar, _ => Except.ok bar
  | (k, range_name) :: rest, bar, prev_reads =>
    if k ≠ "rest" then
      let data_key := keyFmt k (pyStr stat_type)
      match alookup d data_key with
      | none => Except.error (PyErr.keyError data_key)
      | some reads_gt =>
        match prev_reads with
        | none => Except.error PyErr.typeError
        | some prev =>
          if ratNonneg (ratSub prev reads_gt) then
            barLoop s_name d stat_type rest
              (aset bar range_name (ratSub prev reads_gt)) (some reads_gt)
          else
            Except.error (PyErr.assertionError
              ("Error on " ++ s_name ++ " " ++ range_name ++ " " ++ data_key ++
                " . Negative number of reads"))
    else
      let data_key := keyFmt "&gt;Q15" (pyStr stat_type)
      match alookup d data_key with
      | none => Except.error (PyErr.keyError data_key)
      | some v => barLoop s_name d stat_type rest (aset bar range_name v) prev_reads

/-- One sample's histogram row: baseline from `_get_total_reads`, then the
bucket loop over `_range_names`. -/
def sampleBarData (s_name : String) (d : Dict) : Except PyErr Dict :=
  let p := _get_total_reads d
  barLoop s_name d p.2 rangeNames [] p.1

/-- The sample loop of `nanostat_alignment_plot` (source lines 256-274),
accumulating `bar_data`. -/
def plotLoop : List (String × Dict) → List (String × Dict) → Except PyErr (List (String × Dict))
  | [], bar_data => Except.ok bar_data
  | (s_name, d) :: rest, bar_data =>
    match sampleBarData s_name d with
    | Except.error e => Except.error e
    | Except.ok bar => plotLoop rest (aset bar_data s_name bar)

/-- `nanostat_alignment_plot` (source lines 234-289), restricted to the
`bar_data` series handed to `bargraph.plot`. -/
def nanostat_alignment_plot (store : Store) : Except PyErr (List (String × Dict)) :=
  plotLoop store []

deriving instance DecidableEq for Except

/-!
## Concrete input fixtures
-/

/-- The seven input lines of the spec's end-to-end example, exactly as the
spec writes them (with the HTML-escaped threshold keys in the raw text). -/
def exactLines : List String :=
  [ "Number of reads: 1,000", "&gt;Q5: 900", "&gt;Q7: 700", "&gt;Q10: 400",
    "&gt;Q12: 200", "&gt;Q15: 50", "Active channels: 512" ]

/-- The end-to-end example lines as a NanoStat report actually spells
them, with literal `>` characters that `jinja2.escape` turns into the
`&gt;` keys the parser recognizes. -/
def rawLines : List String :=
  [ "Number of reads: 1,000", ">Q5: 900", ">Q7: 700", ">Q10: 400",
    ">Q12: 200", ">Q15: 50", "Active channels: 512" ]

/-- The store produced by parsing `rawLines` for sample S1. -/
def rawStore : Store :=
  [ ("S1",
    [ ("Number of reads (seq summary)", 1000),
      ("&gt;Q5 (seq summary)", 900),
      ("&gt;Q7 (seq summary)", 700),
      ("&gt;Q10 (seq summary)", 400),
      ("&gt;Q12 (seq summary)", 200),
      ("&gt;Q15 (seq summary)", 50),
      ("Active channels (seq summary)", 512) ]) ]

/-- A complete aligned-variant sample record with monotone counts. -/
def goodAligned : Dict :=
  [ (keyFmt "Number of reads" "aligned", 100),
    (keyFmt "&gt;Q5" "aligned", 90),
    (keyFmt "&gt;Q7" "aligned", 70),
    (keyFmt "&gt;Q10" "aligned", 40),
    (keyFmt "&gt;Q12" "aligned", 20),
    (keyFmt "&gt;Q15" "aligned", 5) ]

/-- A sample record with a "Mean read quality" value under both variants. -/
def storeMeanBoth : Store :=
  [ ("S1", [ (keyFmt "Mean read quality" "aligned", 9),
             (keyFmt "Mean read quality" "seq summary", 8) ]) ]

/-- A sample record with only the seq-summary "Mean read quality" value. -/
def storeMeanSeq : Store :=
  [ ("S1", [ (keyFmt "Mean read quality" "seq summary", 8) ]) ]

/-- A sample record with a "Median read quality" value under both
variants. -/
def storeMedianBoth : Store :=
  [ ("S1", [ (keyFmt "Median read quality" "aligned", 9),
             (keyFmt "Median read quality" "seq summary", 8) ]) ]

/-- A sample record with only the seq-summary "Median read quality"
value. -/
def storeMedianSeq : Store :=
  [ ("S1", [ (keyFmt "Median read quality" "seq summary", 8) ]) ]

/-- The composite-key invariant of the aggregate store: a key is the
`keyFmt` of a vocabulary name with the aligned or seq-summary variant. -/
def GoodKey (k : String) : Prop :=
  ∃ n, (n ∈ KEYS_NUM ∨ n ∈ KEYS_READ_Q) ∧
    (k = keyFmt n "aligned" ∨ k = keyFmt n "seq summary")

/-!
## Bridge lemmas
-/

/-- A rational times the cast of its denominator is the cast of its
numerator. -/
theorem ratNumCast (a : ℚ) : ((a.num : ℚ)) = a * ((a.den : ℚ)) := by
  have ha : ((a.den : ℚ)) ≠ 0 := Nat.cast_ne_zero.mpr a.den_nz
  conv_lhs => rw [← div_mul_cancel₀ ((a.num : ℚ)) ha]
  rw [Rat.num_div_den]

/-- `ratSub` agrees with subtraction on `ℚ`. -/
theorem ratSub_eq (a b : ℚ) : ratSub a b = a - b := by
  have ha : ((a.den : ℚ)) ≠ 0 := Nat.cast_ne_zero.mpr a.den_nz
  have hb : ((b.den : ℚ)) ≠ 0 := Nat.cast_ne_zero.mpr b.den_nz
  unfold ratSub
  rw [Rat.mkRat_eq_div]
  push_cast
  rw [div_eq_iff (mul_ne_zero ha hb), ratNumCast a, ratNumCast b]
  ring

/-- `ratNonneg` agrees with `0 ≤ ·` on `ℚ`. -/
theorem ratNonneg_iff (a : ℚ) : ratNonneg a = true ↔ 0 ≤ a := by
  unfold ratNonneg
  rw [decide_eq_true_iff]
  exact Rat.num_nonneg


/-!
## Claim theorems (concrete)
-/

/-- C6: for a sample whose total reads is 100 while its cumulative
count(&gt;Q5) is 120, the histogram derivation fails with the
data-integrity assertion naming the sample; it does not clamp the
negative bucket or silently skip the sample (no `Except.ok` result is
produced at all). -/
theorem c6_cumulative_exceeds_total_fatal :
    nanostat_alignment_plot
        [("S1", [(keyFmt "Number of reads" "aligned", 100),
                 (keyFmt "&gt;Q5" "aligned", 120)])] =
      Except.error (PyErr.assertionError
        "Error on S1 &lt;Q5 &gt;Q5 (aligned) . Negative number of reads") := by
  decide

/-- C9: the parser is not total over arbitrary text lines: the line
"Number of reads" (a recognized field name with no colon) raises an
`IndexError` through `parts[1]`, both in the line loop and in the whole
parse function, while a fully unrecognized line is merely ignored. -/
theorem c9_no_colon_line_raises :
    parseNanostatLines ["Number of reads"] [] = Except.error PyErr.indexError ∧
    parse_nanostat_log [] "S1" "f.txt" ["Number of reads"] =
      Except.error PyErr.indexError ∧
    parse_nanostat_log [] "S1" "f.txt" ["Completely unrelated line"] =
      Except.ok ([], [Diag.skipped "f.txt"]) := by
  refine ⟨by decide, by decide, by decide⟩

/-- C4 (failing input): for a finalized store in which sample S1 has no
"Number of reads" key under any variant, the histogram derivation does
not complete with S1 skipped: it raises a `KeyError` on the composite key
formatted with Python's `None` (`&gt;Q5 (None)`), and when another sample
with complete data is present its row is lost too, although it would be
produced were S1 absent. -/
theorem c4_missing_total_reads_keyerror :
    nanostat_alignment_plot [("S1", [("Active channels (seq summary)", 512)])] =
      Except.error (PyErr.keyError "&gt;Q5 (None)") ∧
    nanostat_alignment_plot
        [("S1", [("Active channels (seq summary)", 512)]), ("S2", goodAligned)] =
      Except.error (PyErr.keyError "&gt;Q5 (None)") ∧
    nanostat_alignment_plot [("S2", goodAligned)] =
      Except.ok [("S2", [("&lt;Q5", 10), ("Q5-7", 20), ("Q7-10", 30),
                         ("Q10-12", 20), ("Q12-15", 15), ("&gt;Q15", 5)])] := by
  refine ⟨by decide, by decide, by decide⟩

/-- C2 (counterexample): with one sample carrying "Mean read quality"
under both variants, the aligned-variant column is hidden (the static
`headers_base` template for "Mean read quality" carries `hidden: True`,
which is kept by `headers[key].get("hidden", False) or ...`), contradicting
the claimed visibility; the seq-summary column with the value alone is
hidden as well. -/
theorem c2_mean_read_quality_aligned_hidden :
    (alookup (nanostat_general_stats_table storeMeanBoth)
        "Mean read quality (aligned)").map HeaderSpec.hidden = some true ∧
    (alookup (nanostat_general_stats_table storeMeanBoth)
        "Mean read quality (seq summary)").map HeaderSpec.hidden = some true ∧
    (alookup (nanostat_general_stats_table storeMeanSeq)
        "Mean read quality (seq summary)").map HeaderSpec.hidden = some true := by
  refine ⟨by decide, by decide, by decide⟩

/-- C2 (amended): for a base statistic whose template is not pre-hidden
("Median read quality"), the visibility policy holds: with both variants
present the aligned column is visible and the seq-summary column hidden;
with only the seq-summary value present that column is visible. -/
theorem c2_median_read_quality_visibility :
    (alookup (nanostat_general_stats_table storeMedianBoth)
        "Median read quality (aligned)").map HeaderSpec.hidden = some false ∧
    (alookup (nanostat_general_stats_table storeMedianBoth)
        "Median read quality (seq summary)").map HeaderSpec.hidden = some true ∧
    (alookup (nanostat_general_stats_table storeMedianSeq)
        "Median read quality (seq summary)").map HeaderSpec.hidden = some false := by
  refine ⟨by decide, by decide, by decide⟩

/-- C5 (counterexample): parsing the exact input lines of the claim (with
the literal text `&gt;Q5` and so on in the raw input) does classify the
stream as seq summary, but `jinja2.escape` turns `&gt;Q5` into
`&amp;gt;Q5`, so no threshold count is recognized and the histogram
derivation raises a `KeyError` instead of yielding the claimed buckets. -/
theorem c5_exact_lines_do_not_yield_buckets :
    processStreams [⟨"S1", "f.txt", exactLines⟩] =
      Except.ok ([("S1", [("Number of reads (seq summary)", 1000),
                          ("Active channels (seq summary)", 512)])], []) ∧
    nanostat_alignment_plot
        [("S1", [("Number of reads (seq summary)", 1000),
                 ("Active channels (seq summary)", 512)])] =
      Except.error (PyErr.keyError "&gt;Q5 (seq summary)") := by
  refine ⟨by decide, by decide⟩

/-- C5 (amended): with the report lines spelled with literal `>` (which
`jinja2.escape` maps to the recognized `&gt;` keys), sample S1 is
classified seq summary and the histogram derivation yields exactly the
claimed six buckets, which sum to 1000. -/
theorem c5_raw_lines_yield_buckets :
    processStreams [⟨"S1", "f.txt", rawLines⟩] = Except.ok (rawStore, []) ∧
    nanostat_alignment_plot rawStore =
      Except.ok [("S1", [("&lt;Q5", 100), ("Q5-7", 200), ("Q7-10", 300),
                         ("Q10-12", 200), ("Q12-15", 150), ("&gt;Q15", 50)])] ∧
    ([((100 : ℚ)), 200, 300, 200, 150, 50].sum = (1000 : ℚ)) := by
  refine ⟨by decide, by decide, by norm_num⟩

/-!
## Association-list lemmas
-/

/-- Lookup after assignment: the assigned key reads back the new value,
others are unchanged. -/
theorem alookup_aset {α : Type} (l : List (String × α)) (k : String) (v : α) (t : String) :
    alookup (aset l k v) t = if k = t then some v else alookup l t := by
  induction l with
  | nil => simp [aset, alookup]
  | cons hd tl ih =>
    obtain ⟨k', v'⟩ := hd
    by_cases hk : k' = k
    · subst hk
      by_cases ht : k' = t
      · subst ht
        simp [aset, alookup]
      · simp [aset, alookup, ht]
    · by_cases ht : k' = t
      · subst ht
        simp [aset, alookup, hk, Ne.symm hk]
      · simp [aset, alookup, hk, ht, ih]

/-- Unfolding of `akeys` on a cons cell. -/
theorem akeys_cons {α : Type} (p : String × α) (tl : List (String × α)) :
    akeys (p :: tl) = p.1 :: akeys tl := rfl

/-- Keys after assignment: unchanged when the key was present, appended
otherwise. -/
theorem akeys_aset {α : Type} (l : List (String × α)) (k : String) (v : α) :
    akeys (aset l k v) = if k ∈ akeys l then akeys l else akeys l ++ [k] := by
  induction l with
  | nil => simp [aset, akeys]
  | cons hd tl ih =>
    obtain ⟨k', v'⟩ := hd
    by_cases hk : k' = k
    · subst hk
      simp [aset, akeys_cons]
    · simp only [aset, if_neg hk, akeys_cons, ih]
      by_cases hm : k ∈ akeys tl
      · rw [if_pos hm, if_pos (by exact List.mem_cons_of_mem _ hm)]
      · rw [if_neg hm, if_neg (by simp [List.mem_cons, Ne.symm hk, hm]), List.cons_append]

/-- A key is absent exactly when lookup fails. -/
theorem alookup_eq_none {α : Type} (l : List (String × α)) (k : String) :
    alookup l k = none ↔ k ∉ akeys l := by
  induction l with
  | nil => simp [alookup, akeys]
  | cons hd tl ih =>
    obtain ⟨k', v'⟩ := hd
    by_cases hk : k' = k
    · subst hk
      simp [alookup, akeys]
    · simp [alookup, akeys, hk, ih, Ne.symm hk]

/-- Assignment preserves key uniqueness. -/
theorem akeys_aset_nodup {α : Type} (l : List (String × α)) (k : String) (v : α)
    (h : (akeys l).Nodup) : (akeys (aset l k v)).Nodup := by
  rw [akeys_aset]
  by_cases hm : k ∈ akeys l
  · simpa [hm]
  · simp only [if_neg hm]
    refine List.Nodup.append h (List.nodup_singleton k) ?_
    intro a ha hb
    simp only [List.mem_singleton] at hb
    exact hm (hb ▸ ha)

/-- Every key of `aupdate d e` comes from `d` or from `e`. -/
theorem akeys_aupdate_sub {α : Type} (e d : List (String × α)) (k : String)
    (h : k ∈ akeys (aupdate d e)) : k ∈ akeys d ∨ k ∈ akeys e := by
  induction e generalizing d with
  | nil => exact Or.inl h
  | cons hd tl ih =>
    obtain ⟨k', v'⟩ := hd
    rcases ih (aset d k' v') h with hm | hm
    · rw [akeys_aset] at hm
      by_cases hk : k' ∈ akeys d
      · rw [if_pos hk] at hm
        exact Or.inl hm
      · rw [if_neg hk] at hm
        rcases List.mem_append.mp hm with hm | hm
        · exact Or.inl hm
        · simp only [List.mem_singleton] at hm
          subst hm
          simp [akeys]
    · right
      rw [akeys_cons]
      exact List.mem_cons_of_mem _ hm

/-- Lookup in `aupdate d e` when the keys of `e` are unique: the incoming
binding wins, otherwise the old one shows through. -/
theorem alookup_aupdate {α : Type} (e d : List (String × α)) (t : String)
    (he : (akeys e).Nodup) :
    alookup (aupdate d e) t = (alookup e t).or (alookup d t) := by
  induction e generalizing d with
  | nil => simp [aupdate, alookup, Option.or]
  | cons hd tl ih =>
    obtain ⟨k, v⟩ := hd
    simp only [akeys_cons, List.nodup_cons] at he
    show alookup (aupdate (aset d k v) tl) t = (alookup ((k, v) :: tl) t).or (alookup d t)
    rw [ih (aset d k v) he.2, alookup_aset]
    by_cases hk : k = t
    · subst hk
      rw [(alookup_eq_none tl k).mpr he.1]
      simp [alookup, Option.or]
    · rw [if_neg hk]
      simp [alookup, hk]

/-- Updating past a binding whose key the update does not mention leaves
the binding in place. -/
theorem aupdate_cons_notmem {α : Type} (e : List (String × α)) (k : String) (v : α)
    (d : List (String × α)) (hk : k ∉ akeys e) :
    aupdate ((k, v) :: d) e = (k, v) :: aupdate d e := by
  induction e generalizing d with
  | nil => rfl
  | cons hd tl ih =>
    obtain ⟨k', v'⟩ := hd
    simp only [akeys_cons, List.mem_cons, not_or] at hk
    show aupdate (aset ((k, v) :: d) k' v') tl = (k, v) :: aupdate (aset d k' v') tl
    rw [show aset ((k, v) :: d) k' v' = (k, v) :: aset d k' v' by
      simp [aset, hk.1]]
    exact ih (aset d k' v') hk.2

/-- Updating the empty dict with a unique-keyed dict reproduces it. -/
theorem aupdate_nil {α : Type} (e : List (String × α)) (he : (akeys e).Nodup) :
    aupdate ([] : List (String × α)) e = e := by
  induction e with
  | nil => rfl
  | cons hd tl ih =>
    obtain ⟨k, v⟩ := hd
    simp only [akeys_cons, List.nodup_cons] at he
    show aupdate (aset [] k v) tl = (k, v) :: tl
    rw [show aset ([] : List (String × α)) k v = [(k, v)] from rfl,
      aupdate_cons_notmem tl k v [] he.1, ih he.2]

/-!
## Parser lemmas
-/

/-- String append is right-cancellative. -/
theorem stringAppendRightCancel (a b s : String) (h : a ++ s = b ++ s) : a = b := by
  have hd := congrArg String.data h
  rw [String.data_append, String.data_append] at hd
  exact String.ext (List.append_cancel_right hd)

/-- For a fixed stat type, distinct base names give distinct composite
keys. -/
theorem keyFmt_inj (v : String) (a b : String) (h : keyFmt a v = keyFmt b v) : a = b := by
  unfold keyFmt at h
  have hd := congrArg String.data h
  simp only [String.data_append, List.append_assoc] at hd
  exact String.ext (List.append_cancel_right hd)

/-- The keys of a namespaced record are the namespaced keys. -/
theorem akeys_namespaceKeys (d : Dict) (v : String) :
    akeys (namespaceKeys d v) = (akeys d).map (fun k => keyFmt k v) := by
  unfold namespaceKeys akeys
  rw [List.map_map, List.map_map]
  rfl

/-- Namespacing a unique-keyed record keeps its keys unique. -/
theorem namespaceKeys_nodup (d : Dict) (v : String) (h : (akeys d).Nodup) :
    (akeys (namespaceKeys d v)).Nodup := by
  rw [akeys_namespaceKeys]
  exact h.map (fun a b hab => keyFmt_inj v a b hab)

/-- Every key the line parser adds is from one of the two vocabularies. -/
theorem parseNanostatLine_keys (ns : Dict) (line : String) (stats : Dict)
    (h : parseNanostatLine ns line = Except.ok stats) :
    ∀ k ∈ akeys stats, k ∈ akeys ns ∨ k ∈ KEYS_NUM ∨ k ∈ KEYS_READ_Q := by
  intro k hk
  simp only [parseNanostatLine] at h
  split at h
  · cases h
    exact Or.inl hk
  next x key restParts heq =>
    split at h
    next hnum =>
      split at h
      · cases h
      next x1 p1 heq1 =>
        split at h
        · cases h
        next x2 v heq2 =>
          cases h
          rw [akeys_aset] at hk
          by_cases hm : key ∈ akeys ns
          · rw [if_pos hm] at hk
            exact Or.inl hk
          · rw [if_neg hm] at hk
            rcases List.mem_append.mp hk with hk | hk
            · exact Or.inl hk
            · simp only [List.mem_singleton] at hk
              subst hk
              exact Or.inr (Or.inl hnum)
    next hnum =>
      split at h
      next hq =>
        split at h
        · cases h
        next x1 p1 heq1 =>
          split at h
          · cases h
          next x2 tok heq2 =>
            split at h
            · cases h
            next x3 v heq3 =>
              cases h
              rw [akeys_aset] at hk
              by_cases hm : key ∈ akeys ns
              · rw [if_pos hm] at hk
                exact Or.inl hk
              · rw [if_neg hm] at hk
                rcases List.mem_append.mp hk with hk | hk
                · exact Or.inl hk
                · simp only [List.mem_singleton] at hk
                  subst hk
                  exact Or.inr (Or.inr hq)
      next hq =>
        cases h
        exact Or.inl hk

/-- The line parser keeps dict keys unique. -/
theorem parseNanostatLine_nodup (ns : Dict) (line : String) (stats : Dict)
    (h : parseNanostatLine ns line = Except.ok stats) (hns : (akeys ns).Nodup) :
    (akeys stats).Nodup := by
  simp only [parseNanostatLine] at h
  split at h
  · cases h
    exact hns
  next x key restParts heq =>
    split at h
    · split at h
      · cases h
      next x1 p1 heq1 =>
        split at h
        · cases h
        next x2 v heq2 =>
          cases h
          exact akeys_aset_nodup _ _ _ hns
    · split at h
      · split at h
        · cases h
        next x1 p1 heq1 =>
          split at h
          · cases h
          next x2 tok heq2 =>
            split at h
            · cases h
            next x3 v heq3 =>
              cases h
              exact akeys_aset_nodup _ _ _ hns
      · cases h
        exact hns

/-- Every key of a parsed stream record is from one of the two
vocabularies. -/
theorem parseNanostatLines_keys (lines : List String) (ns stats : Dict)
    (h : parseNanostatLines lines ns = Except.ok stats) :
    ∀ k ∈ akeys stats, k ∈ akeys ns ∨ k ∈ KEYS_NUM ∨ k ∈ KEYS_READ_Q := by
  induction lines generalizing ns with
  | nil =>
    cases h
    exact fun k hk => Or.inl hk
  | cons line rest ih =>
    intro k hk
    unfold parseNanostatLines at h
    split at h
    · cases h
    next ns' hline =>
      rcases ih ns' h k hk with hm | hm
      · exact parseNanostatLine_keys ns line ns' hline k hm
      · exact Or.inr hm

/-- A parsed stream record has unique keys. -/
theorem parseNanostatLines_nodup (lines : List String) (ns stats : Dict)
    (h : parseNanostatLines lines ns = Except.ok stats) (hns : (akeys ns).Nodup) :
    (akeys stats).Nodup := by
  induction lines generalizing ns with
  | nil =>
    cases h
    exact hns
  | cons line rest ih =>
    unfold parseNanostatLines at h
    split at h
    · cases h
    next ns' hline =>
      exact ih ns' h (parseNanostatLine_nodup ns line ns' hline hns)

/-!
## Merge and loop lemmas
-/

/-- Merging a record for a fresh sample installs it verbatim with no
diagnostic. -/
theorem mergeOut_fresh (store : Store) (sname : String) (out_d : Dict)
    (hfresh : alookup store sname = none) (hnodup : (akeys out_d).Nodup) :
    mergeOut store sname out_d = (aset store sname out_d, []) := by
  unfold mergeOut
  rw [hfresh]
  simp [aupdate_nil out_d hnodup]

/-- A line-parse failure propagates out of `parse_nanostat_log`. -/
theorem parse_nanostat_log_error (store : Store) (sname fn : String)
    (lines : List String) (e : PyErr)
    (h : parseNanostatLines lines [] = Except.error e) :
    parse_nanostat_log store sname fn lines = Except.error e := by
  simp only [parse_nanostat_log, h]

/-- Unfolding of the stream loop on a cons cell. -/
theorem processStreamsFrom_cons (f : LogFile) (fs : List LogFile) (acc : Store × List Diag) :
    processStreamsFrom (f :: fs) acc =
      match parse_nanostat_log acc.1 f.s_name f.fn f.lines with
      | Except.error e => Except.error e
      | Except.ok (st, ds) => processStreamsFrom fs (st, acc.2 ++ ds) := rfl

/-- The stream loop splits over list append, propagating errors. -/
theorem processStreamsFrom_append (xs ys : List LogFile) (acc : Store × List Diag) :
    processStreamsFrom (xs ++ ys) acc =
      match processStreamsFrom xs acc with
      | Except.error e => Except.error e
      | Except.ok acc' => processStreamsFrom ys acc' := by
  induction xs generalizing acc with
  | nil => rfl
  | cons f fs ih =>
    rw [List.cons_append, processStreamsFrom_cons, processStreamsFrom_cons]
    cases parse_nanostat_log acc.1 f.s_name f.fn f.lines with
    | error e => rfl
    | ok p =>
      obtain ⟨st, ds⟩ := p
      exact ih (st, acc.2 ++ ds)

/-!
## Claim theorems (variant classification, merging, error propagation)
-/

/-- C7: for every parsed stream over a fresh sample name, the variant is
classified from the discriminator fields: a "Total bases aligned" field
makes it aligned (keys namespaced "(aligned)"); otherwise an
"Active channels" field makes it seq summary; otherwise the stream is
dropped — the store is unchanged and a skip diagnostic naming the input
file is emitted. -/
theorem c7_variant_classification (store : Store) (sname fn : String)
    (lines : List String) (stats : Dict)
    (hp : parseNanostatLines lines [] = Except.ok stats)
    (hfresh : alookup store sname = none) :
    ((alookup stats "Total bases aligned").isSome →
      parse_nanostat_log store sname fn lines =
        Except.ok (aset store sname (namespaceKeys stats "aligned"), [])) ∧
    (¬ (alookup stats "Total bases aligned").isSome →
      (alookup stats "Active channels").isSome →
      parse_nanostat_log store sname fn lines =
        Except.ok (aset store sname (namespaceKeys stats "seq summary"), [])) ∧
    (¬ (alookup stats "Total bases aligned").isSome →
      ¬ (alookup stats "Active channels").isSome →
      parse_nanostat_log store sname fn lines =
        Except.ok (store, [Diag.skipped fn])) := by
  have hnodup : (akeys stats).Nodup :=
    parseNanostatLines_nodup lines [] stats hp (by simp [akeys])
  refine ⟨?_, ?_, ?_⟩
  · intro hta
    simp only [parse_nanostat_log, hp]
    rw [if_pos hta, mergeOut_fresh store sname _ hfresh (namespaceKeys_nodup stats _ hnodup)]
  · intro hta hac
    simp only [parse_nanostat_log, hp]
    rw [if_neg hta, if_pos hac,
      mergeOut_fresh store sname _ hfresh (namespaceKeys_nodup stats _ hnodup)]
  · intro hta hac
    simp only [parse_nanostat_log, hp]
    rw [if_neg hta, if_neg hac]

/-- Witness for C7 at a concrete seq-summary stream over the empty
store. -/
theorem c7_variant_classification_witness :
    parseNanostatLines rawLines [] =
      Except.ok [("Number of reads", 1000), ("&gt;Q5", 900), ("&gt;Q7", 700),
                 ("&gt;Q10", 400), ("&gt;Q12", 200), ("&gt;Q15", 50),
                 ("Active channels", 512)] ∧
    (((alookup ([("Number of reads", 1000), ("&gt;Q5", 900), ("&gt;Q7", 700),
                 ("&gt;Q10", 400), ("&gt;Q12", 200), ("&gt;Q15", 50),
                 ("Active channels", 512)] : Dict) "Total bases aligned").isSome →
      parse_nanostat_log [] "S1" "f.txt" rawLines =
        Except.ok (aset [] "S1" (namespaceKeys
          [("Number of reads", 1000), ("&gt;Q5", 900), ("&gt;Q7", 700),
           ("&gt;Q10", 400), ("&gt;Q12", 200), ("&gt;Q15", 50),
           ("Active channels", 512)] "aligned"), [])) ∧
     (¬ (alookup ([("Number of reads", 1000), ("&gt;Q5", 900), ("&gt;Q7", 700),
                  ("&gt;Q10", 400), ("&gt;Q12", 200), ("&gt;Q15", 50),
                  ("Active channels", 512)] : Dict) "Total bases aligned").isSome →
      (alookup ([("Number of reads", 1000), ("&gt;Q5", 900), ("&gt;Q7", 700),
                 ("&gt;Q10", 400), ("&gt;Q12", 200), ("&gt;Q15", 50),
                 ("Active channels", 512)] : Dict) "Active channels").isSome →
      parse_nanostat_log [] "S1" "f.txt" rawLines =
        Except.ok (aset [] "S1" (namespaceKeys
          [("Number of reads", 1000), ("&gt;Q5", 900), ("&gt;Q7", 700),
           ("&gt;Q10", 400), ("&gt;Q12", 200), ("&gt;Q15", 50),
           ("Active channels", 512)] "seq summary"), [])) ∧
     (¬ (alookup ([("Number of reads", 1000), ("&gt;Q5", 900), ("&gt;Q7", 700),
                  ("&gt;Q10", 400), ("&gt;Q12", 200), ("&gt;Q15", 50),
                  ("Active channels", 512)] : Dict) "Total bases aligned").isSome →
      ¬ (alookup ([("Number of reads", 1000), ("&gt;Q5", 900), ("&gt;Q7", 700),
                   ("&gt;Q10", 400), ("&gt;Q12", 200), ("&gt;Q15", 50),
                   ("Active channels", 512)] : Dict) "Active channels").isSome →
      parse_nanostat_log [] "S1" "f.txt" rawLines =
        Except.ok ([], [Diag.skipped "f.txt"]))) :=
  ⟨by decide,
   c7_variant_classification [] "S1" "f.txt" rawLines
     [("Number of reads", 1000), ("&gt;Q5", 900), ("&gt;Q7", 700),
      ("&gt;Q10", 400), ("&gt;Q12", 200), ("&gt;Q15", 50),
      ("Active channels", 512)] (by decide) (by rfl)⟩

/-- C8: merging a parsed aligned-variant record for a sample already in
the store whose composite keys overlap the existing entry emits exactly
one conflict diagnostic naming the sample; the sample's entry becomes the
old record updated by the incoming one — on every key the incoming value
wins where present (last-write-wins) and the existing value shows through
elsewhere — and all other samples are untouched. -/
theorem c8_merge_conflict (store : Store) (sname fn : String) (lines : List String)
    (stats d₀ : Dict)
    (hp : parseNanostatLines lines [] = Except.ok stats)
    (hta : (alookup stats "Total bases aligned").isSome)
    (hs : alookup store sname = some d₀)
    (hover : keysOverlap d₀ (namespaceKeys stats "aligned") = true) :
    parse_nanostat_log store sname fn lines =
      Except.ok (aset store sname (aupdate d₀ (namespaceKeys stats "aligned")),
        [Diag.duplicate sname]) ∧
    alookup (aset store sname (aupdate d₀ (namespaceKeys stats "aligned"))) sname =
      some (aupdate d₀ (namespaceKeys stats "aligned")) ∧
    (∀ t, t ≠ sname →
      alookup (aset store sname (aupdate d₀ (namespaceKeys stats "aligned"))) t =
        alookup store t) ∧
    (∀ k, alookup (aupdate d₀ (namespaceKeys stats "aligned")) k =
      (alookup (namespaceKeys stats "aligned") k).or (alookup d₀ k)) := by
  have hnodup : (akeys (namespaceKeys stats "aligned")).Nodup :=
    namespaceKeys_nodup stats "aligned"
      (parseNanostatLines_nodup lines [] stats hp (by simp [akeys]))
  refine ⟨?_, ?_, ?_, ?_⟩
  · simp only [parse_nanostat_log, hp]
    rw [if_pos hta]
    unfold mergeOut
    rw [hs]
    simp [hover]
  · rw [alookup_aset]
    simp
  · intro t ht
    rw [alookup_aset, if_neg (Ne.symm ht)]
  · intro k
    exact alookup_aupdate (namespaceKeys stats "aligned") d₀ k hnodup

/-- Witness for C8: a second aligned stream for sample S1 overlapping on
"Number of reads (aligned)". -/
theorem c8_merge_conflict_witness :
    parseNanostatLines ["Number of reads: 7", "Total bases aligned: 3"] [] =
      Except.ok [("Number of reads", 7), ("Total bases aligned", 3)] ∧
    (parse_nanostat_log
        [("S1", [(keyFmt "Number of reads" "aligned", 5), ("extra (aligned)", 1)])]
        "S1" "f.txt" ["Number of reads: 7", "Total bases aligned: 3"] =
      Except.ok (aset
        [("S1", [(keyFmt "Number of reads" "aligned", 5), ("extra (aligned)", 1)])]
        "S1" (aupdate [(keyFmt "Number of reads" "aligned", 5), ("extra (aligned)", 1)]
          (namespaceKeys [("Number of reads", 7), ("Total bases aligned", 3)] "aligned")),
        [Diag.duplicate "S1"]) ∧
     alookup (aset
        [("S1", [(keyFmt "Number of reads" "aligned", 5), ("extra (aligned)", 1)])]
        "S1" (aupdate [(keyFmt "Number of reads" "aligned", 5), ("extra (aligned)", 1)]
          (namespaceKeys [("Number of reads", 7), ("Total bases aligned", 3)] "aligned")))
        "S1" =
      some (aupdate [(keyFmt "Number of reads" "aligned", 5), ("extra (aligned)", 1)]
        (namespaceKeys [("Number of reads", 7), ("Total bases aligned", 3)] "aligned")) ∧
     (∀ t, t ≠ "S1" →
      alookup (aset
          [("S1", [(keyFmt "Number of reads" "aligned", 5), ("extra (aligned)", 1)])]
          "S1" (aupdate [(keyFmt "Number of reads" "aligned", 5), ("extra (aligned)", 1)]
            (namespaceKeys [("Number of reads", 7), ("Total bases aligned", 3)] "aligned")))
          t =
        alookup [("S1", [(keyFmt "Number of reads" "aligned", 5), ("extra (aligned)", 1)])] t) ∧
     (∀ k, alookup (aupdate [(keyFmt "Number of reads" "aligned", 5), ("extra (aligned)", 1)]
          (namespaceKeys [("Number of reads", 7), ("Total bases aligned", 3)] "aligned")) k =
      (alookup (namespaceKeys [("Number of reads", 7), ("Total bases aligned", 3)]
          "aligned") k).or
        (alookup [(keyFmt "Number of reads" "aligned", 5), ("extra (aligned)", 1)] k))) :=
  ⟨by decide,
   c8_merge_conflict
     [("S1", [(keyFmt "Number of reads" "aligned", 5), ("extra (aligned)", 1)])]
     "S1" "f.txt" ["Number of reads: 7", "Total bases aligned: 3"]
     [("Number of reads", 7), ("Total bases aligned", 3)]
     [(keyFmt "Number of reads" "aligned", 5), ("extra (aligned)", 1)]
     (by decide) (by decide) (by decide) (by decide)⟩

/-- C3 (counterexample): a malformed numeric value on a recognized key in
the first stream aborts the whole parsing loop: the second, well-formed
stream is never ingested and no aggregate store results, contradicting
the claim that other streams continue to be processed. -/
theorem c3_malformed_value_counterexample :
    processStreams [⟨"A", "a.txt", ["Number of reads: abc"]⟩, ⟨"B", "b.txt", rawLines⟩] =
      Except.error PyErr.valueError := by
  decide

/-- C3 (amended): a numeric parse failure on a recognized key raises an
unhandled `ValueError`-style error: the failing stream contributes
nothing to the store, but the error propagates out of the stream loop, so
streams after the failing one are not processed either. -/
theorem c3_malformed_value_aborts_loop (fs₁ : List LogFile) (f : LogFile)
    (fs₂ : List LogFile) (st : Store) (ds : List Diag) (e : PyErr)
    (h₁ : processStreams fs₁ = Except.ok (st, ds))
    (h₂ : parseNanostatLines f.lines [] = Except.error e) :
    processStreams (fs₁ ++ f :: fs₂) = Except.error e := by
  unfold processStreams at h₁ ⊢
  rw [processStreamsFrom_append, h₁]
  show processStreamsFrom (f :: fs₂) (st, ds) = Except.error e
  rw [processStreamsFrom_cons, parse_nanostat_log_error _ _ _ _ _ h₂]

/-- Witness for C3 at a concrete run: one good stream, then a malformed
one, then another stream that is consequently never parsed. -/
theorem c3_malformed_value_aborts_loop_witness :
    processStreams [⟨"S1", "f.txt", rawLines⟩] = Except.ok (rawStore, []) ∧
    parseNanostatLines ["Number of reads: abc"] [] = Except.error PyErr.valueError ∧
    processStreams ([⟨"S1", "f.txt", rawLines⟩] ++
        ⟨"A", "a.txt", ["Number of reads: abc"]⟩ :: [⟨"B", "b.txt", rawLines⟩]) =
      Except.error PyErr.valueError :=
  ⟨by decide, by decide,
   c3_malformed_value_aborts_loop [⟨"S1", "f.txt", rawLines⟩]
     ⟨"A", "a.txt", ["Number of reads: abc"]⟩ [⟨"B", "b.txt", rawLines⟩]
     rawStore [] PyErr.valueError (by decide) (by decide)⟩

/-!
## Histogram invariant (C1)
-/

/-- C1: for a sample whose selected variant carries monotone cumulative
threshold counts bounded by its total-reads value, the histogram
derivation succeeds with exactly six buckets, each non-negative, summing
to the total. -/
theorem c1_histogram_buckets_sum (sname : String) (d : Dict) (v : String)
    (total c5 c7 c10 c12 c15 : ℚ)
    (hget : _get_total_reads d = (some total, some v))
    (h5 : alookup d (keyFmt "&gt;Q5" v) = some c5)
    (h7 : alookup d (keyFmt "&gt;Q7" v) = some c7)
    (h10 : alookup d (keyFmt "&gt;Q10" v) = some c10)
    (h12 : alookup d (keyFmt "&gt;Q12" v) = some c12)
    (h15 : alookup d (keyFmt "&gt;Q15" v) = some c15)
    (m1 : c5 ≤ total) (m2 : c7 ≤ c5) (m3 : c10 ≤ c7) (m4 : c12 ≤ c10)
    (m5 : c15 ≤ c12) (m6 : 0 ≤ c15) :
    ∃ bar, sampleBarData sname d = Except.ok bar ∧
      bar.length = 6 ∧ (∀ p ∈ bar, 0 ≤ p.2) ∧ (bar.map Prod.snd).sum = total := by
  have e5 : ratNonneg (ratSub total c5) = true :=
    (ratNonneg_iff _).mpr (by rw [ratSub_eq]; linarith)
  have e7 : ratNonneg (ratSub c5 c7) = true :=
    (ratNonneg_iff _).mpr (by rw [ratSub_eq]; linarith)
  have e10 : ratNonneg (ratSub c7 c10) = true :=
    (ratNonneg_iff _).mpr (by rw [ratSub_eq]; linarith)
  have e12 : ratNonneg (ratSub c10 c12) = true :=
    (ratNonneg_iff _).mpr (by rw [ratSub_eq]; linarith)
  have e15 : ratNonneg (ratSub c12 c15) = true :=
    (ratNonneg_iff _).mpr (by rw [ratSub_eq]; linarith)
  refine ⟨[("&lt;Q5", ratSub total c5), ("Q5-7", ratSub c5 c7),
           ("Q7-10", ratSub c7 c10), ("Q10-12", ratSub c10 c12),
           ("Q12-15", ratSub c12 c15), ("&gt;Q15", c15)], ?_, ?_, ?_, ?_⟩
  · unfold sampleBarData
    rw [hget]
    simp +decide only [rangeNames, barLoop, pyStr, h5, h7, h10, h12, h15,
      e5, e7, e10, e12, e15, aset, ite_true, ite_false]
  · rfl
  · intro p hp
    simp only [List.mem_cons, List.not_mem_nil, or_false] at hp
    rcases hp with hp | hp | hp | hp | hp | hp <;>
      (subst hp; simp only [ratSub_eq]; try linarith)
  · simp only [List.map_cons, List.map_nil, List.sum_cons, List.sum_nil, ratSub_eq]
    ring

/-- Witness for C1 at the concrete aligned-variant sample
`goodAligned`. -/
theorem c1_histogram_buckets_sum_witness :
    _get_total_reads goodAligned = (some 100, some "aligned") ∧
    (∃ bar, sampleBarData "S2" goodAligned = Except.ok bar ∧
      bar.length = 6 ∧ (∀ p ∈ bar, 0 ≤ p.2) ∧ (bar.map Prod.snd).sum = 100) :=
  ⟨by decide,
   c1_histogram_buckets_sum "S2" goodAligned "aligned" 100 90 70 40 20 5
     (by decide) (by decide) (by decide) (by decide) (by decide) (by decide)
     (by norm_num) (by norm_num) (by norm_num) (by norm_num) (by norm_num)
     (by norm_num)⟩

/-!
## Store key invariant (C10)
-/

/-- Namespacing vocabulary keys with the aligned or seq-summary variant
yields good composite keys. -/
theorem goodKey_namespace (ns : Dict) (variant : String)
    (hvar : variant = "aligned" ∨ variant = "seq summary")
    (hns : ∀ k ∈ akeys ns, k ∈ KEYS_NUM ∨ k ∈ KEYS_READ_Q) :
    ∀ k ∈ akeys (namespaceKeys ns variant), GoodKey k := by
  intro k hk
  rw [akeys_namespaceKeys] at hk
  rcases List.mem_map.mp hk with ⟨n, hn, rfl⟩
  refine ⟨n, hns n hn, ?_⟩
  rcases hvar with h | h
  · exact Or.inl (by rw [h])
  · exact Or.inr (by rw [h])

/-- Merging a good record into a good store keeps every stored key
good. -/
theorem storeInv_mergeOut (store : Store) (sname : String) (out_d : Dict)
    (hout : ∀ k ∈ akeys out_d, GoodKey k)
    (hinv : ∀ s d, alookup store s = some d → ∀ k ∈ akeys d, GoodKey k) :
    ∀ s d, alookup (mergeOut store sname out_d).1 s = some d →
      ∀ k ∈ akeys d, GoodKey k := by
  intro s d hd k hk
  simp only [mergeOut] at hd
  rw [alookup_aset] at hd
  by_cases hss : sname = s
  · rw [if_pos hss] at hd
    cases hd
    rcases akeys_aupdate_sub out_d _ k hk with hm | hm
    · cases hlk : alookup store sname with
      | none =>
        rw [hlk] at hm
        simp [akeys] at hm
      | some d₀ =>
        rw [hlk] at hm
        exact hinv sname d₀ hlk k hm
    · exact hout k hm
  · rw [if_neg hss] at hd
    exact hinv s d hd k hk

/-- One parse step keeps every stored key good. -/
theorem storeInv_parse (store : Store) (sname fn : String) (lines : List String)
    (store' : Store) (diags : List Diag)
    (h : parse_nanostat_log store sname fn lines = Except.ok (store', diags))
    (hinv : ∀ s d, alookup store s = some d → ∀ k ∈ akeys d, GoodKey k) :
    ∀ s d, alookup store' s = some d → ∀ k ∈ akeys d, GoodKey k := by
  simp only [parse_nanostat_log] at h
  split at h
  · cases h
  next x ns heq =>
    have hns : ∀ k ∈ akeys ns, k ∈ KEYS_NUM ∨ k ∈ KEYS_READ_Q := by
      intro k hk
      rcases parseNanostatLines_keys lines [] ns heq k hk with hm | hm
      · simp [akeys] at hm
      · exact hm
    split at h
    · injection h with h'
      intro s d hd
      refine storeInv_mergeOut store sname (namespaceKeys ns "aligned")
        (goodKey_namespace ns "aligned" (Or.inl rfl) hns) hinv s d ?_ 
      rw [congrArg Prod.fst h']
      exact hd
    · split at h
      · injection h with h'
        intro s d hd
        refine storeInv_mergeOut store sname (namespaceKeys ns "seq summary")
          (goodKey_namespace ns "seq summary" (Or.inr rfl) hns) hinv s d ?_ 
        rw [congrArg Prod.fst h']
        exact hd
      · injection h with h'
        intro s d hd
        have hst : store = store' := congrArg Prod.fst h'
        exact hinv s d (hst ▸ hd) 

/-- The stream loop keeps every stored key good. -/
theorem storeInv_processFrom (files : List LogFile) (acc : Store × List Diag)
    (store : Store) (diags : List Diag)
    (h : processStreamsFrom files acc = Except.ok (store, diags))
    (hinv : ∀ s d, alookup acc.1 s = some d → ∀ k ∈ akeys d, GoodKey k) :
    ∀ s d, alookup store s = some d → ∀ k ∈ akeys d, GoodKey k := by
  induction files generalizing acc with
  | nil =>
    injection h with h'
    have hst : acc.1 = store := congrArg Prod.fst h'
    exact hst ▸ hinv
  | cons f fs ih =>
    rw [processStreamsFrom_cons] at h
    cases hp : parse_nanostat_log acc.1 f.s_name f.fn f.lines with
    | error e =>
      rw [hp] at h
      cases h
    | ok p =>
      obtain ⟨st, ds⟩ := p
      rw [hp] at h
      exact ih (st, acc.2 ++ ds) h
        (storeInv_parse acc.1 f.s_name f.fn f.lines st ds hp hinv)

/-- C10: every key ever stored by a run of the parsing phase is a
composite "name (variant)" with the name from the two vocabularies and
the variant aligned or seq summary; in particular no stored record ever
answers a lookup of an "(unrecognized)"-namespaced key, so the
unrecognized branches of the variant-priority lookups can never match. -/
theorem c10_store_keys_namespaced (files : List LogFile) (store : Store)
    (diags : List Diag) (h : processStreams files = Except.ok (store, diags)) :
    (∀ s d, alookup store s = some d → ∀ k ∈ akeys d, GoodKey k) ∧
    (∀ s d, alookup store s = some d → ∀ n, (n ∈ KEYS_NUM ∨ n ∈ KEYS_READ_Q) →
      alookup d (keyFmt n "unrecognized") = none) := by
  have hinv := storeInv_processFrom files ([], []) store diags h
    (by intro s d hd; simp [alookup] at hd)
  refine ⟨hinv, ?_⟩
  intro s d hd n hn
  rw [alookup_eq_none]
  intro hmem
  rcases hinv s d hd _ hmem with ⟨m, hm, hform⟩
  have hneq : ∀ a ∈ KEYS_NUM ++ KEYS_READ_Q, ∀ b ∈ KEYS_NUM ++ KEYS_READ_Q,
      keyFmt a "unrecognized" ≠ keyFmt b "aligned" ∧
      keyFmt a "unrecognized" ≠ keyFmt b "seq summary" := by decide
  have hn' : n ∈ KEYS_NUM ++ KEYS_READ_Q := List.mem_append.mpr hn
  have hm' : m ∈ KEYS_NUM ++ KEYS_READ_Q := List.mem_append.mpr hm
  rcases hform with hf | hf
  · exact (hneq n hn' m hm').1 hf
  · exact (hneq n hn' m hm').2 hf

/-- Witness for C10 at the concrete seq-summary run. -/
theorem c10_store_keys_namespaced_witness :
    processStreams [⟨"S1", "f.txt", rawLines⟩] = Except.ok (rawStore, []) ∧
    ((∀ s d, alookup rawStore s = some d → ∀ k ∈ akeys d, GoodKey k) ∧
     (∀ s d, alookup rawStore s = some d → ∀ n, (n ∈ KEYS_NUM ∨ n ∈ KEYS_READ_Q) →
      alookup d (keyFmt n "unrecognized") = none)) :=
  ⟨by decide,
   c10_store_keys_namespaced [⟨"S1", "f.txt", rawLines⟩] rawStore [] (by decide)⟩
